import Mathlib

/-!
Verification of the IPE-CGA photo enhancement pipeline
(`src/app.py`, `src/auto_enhance.py`, `src/enhance_photos.py`).

The Python sources are shallowly embedded here:
* pixel channels are unbounded integers (`ℤ`), as in Python, with the
  range invariant `0 ≤ c ≤ 255` stated separately;
* Python float arithmetic on statistics and per-pixel formulas is
  idealised as exact rational (`ℚ`) arithmetic, and the transcendental
  parts (`math.tanh`, `math.sqrt`) as real (`ℝ`) arithmetic;
* Python `int(x)` (truncation toward zero) is `pyInt` / `pyIntR`;
* a Python `ZeroDivisionError` is modelled with `Option`.
-/

/-- Python `int()` on a rational: truncation toward zero. -/
def pyInt (q : ℚ) : ℤ := if 0 ≤ q then ⌊q⌋ else ⌈q⌉

/-- Python `int()` on a real: truncation toward zero. -/
noncomputable def pyIntR (x : ℝ) : ℤ := if 0 ≤ x then ⌊x⌋ else ⌈x⌉

/-- An RGB pixel as stored by PIL after `img.convert('RGB')`: one integer
per channel (Python integers are unbounded; the 8-bit range is an
invariant, not a type). -/
structure Px where
  r : ℤ
  g : ℤ
  b : ℤ
deriving DecidableEq, Repr

/-- A decoded raster: list of rows of pixels. -/
abbrev Raster := List (List Px)

/-- All channels of the pixel are in the 8-bit range `[0,255]`. -/
def Px.valid (p : Px) : Prop :=
  0 ≤ p.r ∧ p.r ≤ 255 ∧ 0 ≤ p.g ∧ p.g ≤ 255 ∧ 0 ≤ p.b ∧ p.b ≤ 255

instance (p : Px) : Decidable p.valid := by unfold Px.valid; infer_instance

/-- Every pixel of the raster has its channels in `[0,255]`. -/
def Raster.valid (img : Raster) : Prop :=
  ∀ row ∈ img, ∀ p ∈ row, p.valid

instance (img : Raster) : Decidable img.valid := by
  unfold Raster.valid; exact List.decidableBAll _ img

/-- Apply a pixel kernel to every pixel of the raster. -/
def Raster.mapPx (f : Px → Px) (img : Raster) : Raster :=
  img.map (fun row => row.map f)

def Raster.pixels (img : Raster) : List Px := img.flatten

-- ═══════════════════════════════════════════════════════════
--  StatisticsEngine: `analyze_image` / `ImageStat.Stat` means
-- ═══════════════════════════════════════════════════════════

/-- Raw per-channel means, as computed by `ImageStat.Stat(img).mean`
(`sum of channel / number of pixels`). -/
structure RawStats where
  r_mean : ℚ
  g_mean : ℚ
  b_mean : ℚ
deriving DecidableEq, Repr

def RawStats.overall_brightness (s : RawStats) : ℚ :=
  (s.r_mean + s.g_mean + s.b_mean) / 3

def RawStats.green_dominance (s : RawStats) : ℚ :=
  s.g_mean - (s.r_mean + s.b_mean) / 2

/-- Model of `has_green_cast = green_dominance > 15` (src/app.py line 244). -/
def RawStats.has_green_cast (s : RawStats) : Bool :=
  decide (15 < s.green_dominance)

/-- Model of `is_underexposed = overall_brightness < 100` (src/app.py line 245). -/
def RawStats.is_underexposed (s : RawStats) : Bool :=
  decide (s.overall_brightness < 100)

/-- Model of `is_overexposed = overall_brightness > 180` (src/app.py line 246). -/
def RawStats.is_overexposed (s : RawStats) : Bool :=
  decide (180 < s.overall_brightness)

/-- Channel means of a raster (`ImageStat.Stat(img).mean`). -/
def statsOf (img : Raster) : RawStats :=
  let ps := img.pixels
  let n : ℚ := ps.length
  { r_mean := (ps.map (fun p => (p.r : ℚ))).sum / n
    g_mean := (ps.map (fun p => (p.g : ℚ))).sum / n
    b_mean := (ps.map (fun p => (p.b : ℚ))).sum / n }

-- ═══════════════════════════════════════════════════════════
--  SeverityClassifier (src/app.py lines 82-145, 225-230)
-- ═══════════════════════════════════════════════════════════

inductive Severity where
  | good | mild | moderate | severe
deriving DecidableEq, Repr

open Severity

/-- Brightness classification (src/app.py lines 84-95): returns the
severity and the issue text. -/
def brightness_class (b : ℚ) : Severity × Option String :=
  if b < 70 then (severe, some "Very underexposed")
  else if b < 100 then (moderate, some "Underexposed")
  else if 200 < b then (severe, some "Very overexposed")
  else if 180 < b then (moderate, some "Overexposed")
  else if 160 < b then (mild, some "Slightly bright")
  else (good, none)

/-- Contrast classification (src/app.py lines 98-105).  The measured
contrast is a mean of standard deviations, hence a real number. -/
noncomputable def contrast_class (c : ℝ) : Severity × Option String :=
  open Classical in
  if c < 35 then (severe, some "Very flat / low contrast")
  else if c < 50 then (moderate, some "Low contrast")
  else if c < 65 then (mild, some "Slightly low contrast")
  else (good, none)

/-- Color-cast classification from green dominance (src/app.py 108-115). -/
def color_cast_class (gd : ℚ) : Severity × Option String :=
  if 25 < gd then (severe, some "Strong green cast")
  else if 15 < gd then (moderate, some "Green cast detected")
  else if 8 < gd then (mild, some "Slight green tint")
  else (good, none)

/-- Saturation classification (src/app.py lines 118-127). -/
def saturation_class (s : ℚ) : Severity × Option String :=
  if s < 40 then (severe, some "Very desaturated")
  else if s < 70 then (moderate, some "Undersaturated")
  else if s < 90 then (mild, some "Slightly dull colors")
  else if 200 < s then (moderate, some "Oversaturated")
  else (good, none)

/-- Sharpness classification (src/app.py lines 130-137). -/
def sharpness_class (s : ℚ) : Severity × Option String :=
  if s < 100 then (severe, some "Very soft / blurry")
  else if s < 300 then (moderate, some "Soft image")
  else if s < 800 then (mild, some "Could be sharper")
  else (good, none)

/-- Dynamic-range classification (src/app.py lines 140-145). -/
def dynamic_range_class (d : ℤ) : Severity × Option String :=
  if d < 100 then (moderate, some "Limited dynamic range")
  else if d < 150 then (mild, some "Slightly compressed range")
  else (good, none)

/-- The six per-metric severities of a diagnostics report. -/
structure MetricSeverities where
  brightness : Severity
  contrast : Severity
  color_cast : Severity
  saturation : Severity
  sharpness : Severity
  dynamic_range : Severity
deriving DecidableEq, Repr

/-- Model of `penalty = {"good": 0, "mild": 5, "moderate": 12, "severe": 20}`
(src/app.py line 228). -/
def penalty : Severity → ℤ
  | good => 0
  | mild => 5
  | moderate => 12
  | severe => 20

/-- Sum of the six per-metric penalties. -/
def totalPenalty (m : MetricSeverities) : ℤ :=
  penalty m.brightness + penalty m.contrast + penalty m.color_cast +
    penalty m.saturation + penalty m.sharpness + penalty m.dynamic_range

/-- Overall quality score (src/app.py lines 226-230): start at 100,
subtract each metric's penalty in turn, then `max(0, min(100, score))`. -/
def overall_score (m : MetricSeverities) : ℤ :=
  let score : ℤ :=
    100 - penalty m.brightness - penalty m.contrast - penalty m.color_cast
      - penalty m.saturation - penalty m.sharpness - penalty m.dynamic_range
  max 0 (min 100 score)

/-- A report in which every metric classifies as good. -/
def allGoodMetrics : MetricSeverities :=
  ⟨good, good, good, good, good, good⟩

-- ═══════════════════════════════════════════════════════════
--  TransformStages: per-pixel kernels
-- ═══════════════════════════════════════════════════════════

/-- One channel of Pillow `Image.blend(im1, im2, alpha)` (`Blend.c`):
interpolation for `0 ≤ alpha ≤ 1` (`(UINT8)` C cast truncates), otherwise
extrapolation with clipping to `[0,255]` before the cast.  This is the
kernel behind `ImageEnhance.Brightness/Contrast/Color.enhance`. -/
def pyBlend (alpha : ℚ) (in1 in2 : ℤ) : ℤ :=
  let temp : ℚ := (in1 : ℚ) + alpha * ((in2 : ℚ) - (in1 : ℚ))
  if 0 ≤ alpha ∧ alpha ≤ 1 then pyInt temp
  else if temp ≤ 0 then 0
  else if 255 ≤ temp then 255
  else pyInt temp

/-- Model of `ImageEnhance.Brightness(img).enhance(factor)`: blend of a black
degenerate image with the image. -/
def brightness_enhance (factor : ℚ) (img : Raster) : Raster :=
  img.mapPx fun p =>
    ⟨pyBlend factor 0 p.r, pyBlend factor 0 p.g, pyBlend factor 0 p.b⟩

/-- Pillow RGB→L conversion of one pixel:
`L = (19595*R + 38470*G + 7471*B + 0x8000) >> 16`. -/
def lumaL (p : Px) : ℤ := (19595 * p.r + 38470 * p.g + 7471 * p.b + 32768) / 65536

/-- Model of `ImageEnhance.Contrast` degenerate level:
`mean = int(ImageStat.Stat(image.convert("L")).mean[0] + 0.5)`. -/
def contrast_mean (img : Raster) : ℤ :=
  pyInt ((img.pixels.map fun p => (lumaL p : ℚ)).sum / (img.pixels.length : ℚ) + 1/2)

/-- Model of `ImageEnhance.Contrast(img).enhance(factor)`: blend of a uniform gray
image at the mean luma with the image. -/
def contrast_enhance (factor : ℚ) (img : Raster) : Raster :=
  let m := contrast_mean img
  img.mapPx fun p =>
    ⟨pyBlend factor m p.r, pyBlend factor m p.g, pyBlend factor m p.b⟩

/-- Model of `ImageEnhance.Color(img).enhance(factor)`: blend of the grayscale
(L, replicated to RGB) degenerate with the image. -/
def color_enhance (factor : ℚ) (img : Raster) : Raster :=
  img.mapPx fun p =>
    let l := lumaL p
    ⟨pyBlend factor l p.r, pyBlend factor l p.g, pyBlend factor l p.b⟩

/-- Adaptive exposure factor of `correct_exposure` (src/app.py 258-265). -/
def correct_exposure_factor (a : RawStats) : ℚ :=
  if a.is_underexposed then min (1 + (128 - a.overall_brightness) / 256) 1.35
  else if a.is_overexposed then max (1 - (a.overall_brightness - 128) / 384) 0.85
  else 1.05

/-- Model of `correct_exposure` (src/app.py 258-266). -/
def correct_exposure (img : Raster) (a : RawStats) : Raster :=
  brightness_enhance (correct_exposure_factor a) img

/-- Adaptive contrast factor of `enhance_contrast` (src/app.py 269-272);
the measured contrast is a mean of standard deviations, hence real. -/
noncomputable def enhance_contrast_factor (c : ℝ) : ℚ :=
  if c < 50 then 1.30 else if c < 65 then 1.18 else 1.08

/-- Per-pixel kernel of `remove_green_cast` (src/app.py 282-290): skip
chroma-key pixels, otherwise shift channels by the correction, clamped. -/
def green_cast_pixel (correction : ℚ) (p : Px) : Px :=
  if 150 < p.g ∧ (p.r : ℚ) * 1.5 < (p.g : ℚ) ∧ (p.b : ℚ) * 1.5 < (p.g : ℚ) then p
  else
    ⟨min 255 (pyInt ((p.r : ℚ) + correction * 0.2)),
     max 0 (pyInt ((p.g : ℚ) - correction * 0.6)),
     min 255 (pyInt ((p.b : ℚ) + correction * 0.15))⟩

/-- Model of `remove_green_cast` (src/app.py 275-291): identity unless
`has_green_cast`; `correction = min(green_dominance * 0.4, 25)`. -/
def remove_green_cast (img : Raster) (a : RawStats) : Raster :=
  if a.has_green_cast then
    img.mapPx (green_cast_pixel (min (a.green_dominance * 0.4) 25))
  else img

/-- Model of `lum = r * 0.299 + g * 0.587 + b * 0.114` (src/app.py line 300). -/
def pixel_luma (p : Px) : ℚ :=
  (p.r : ℚ) * 0.299 + (p.g : ℚ) * 0.587 + (p.b : ℚ) * 0.114

/-- Per-pixel kernel of `apply_color_grading` (src/app.py 297-307). -/
def color_grade_pixel (p : Px) : Px :=
  if pixel_luma p < 60 then ⟨p.r, min 255 (p.g + 2), min 255 (p.b + 5)⟩
  else if pixel_luma p < 180 then
    ⟨min 255 (p.r + 4), min 255 (p.g + 1), max 0 (p.b - 3)⟩
  else ⟨min 255 (p.r + 3), min 255 (p.g + 1), max 0 (p.b - 2)⟩

/-- Model of `apply_color_grading` (src/app.py 294-308); the `analysis` argument is
unused by the source body as well. -/
def apply_color_grading (img : Raster) (_a : RawStats) : Raster :=
  img.mapPx color_grade_pixel

/-- Saturation factor of `optimize_saturation` (src/app.py 311-320). -/
def optimize_saturation_factor (a : RawStats) : ℚ :=
  if a.has_green_cast then 1.10
  else if a.overall_brightness < 100 then 1.20
  else if 170 < a.overall_brightness then 1.05
  else 1.15

/-- Model of `optimize_saturation` (src/app.py 311-320). -/
def optimize_saturation (img : Raster) (a : RawStats) : Raster :=
  color_enhance (optimize_saturation_factor a) img

/-- The tone-curve LUT entry (src/app.py 348-351):
`int(max(0, min(255, 0.5 * (1 + math.tanh(2.5 * (i/255 - 0.5))) * 255)))`.
The clamped value is nonnegative, so Python `int()` is the floor. -/
noncomputable def s_curve (i : ℕ) : ℤ :=
  ⌊max 0 (min 255 (0.5 * (1 + Real.tanh (2.5 * ((i : ℝ) / 255 - 0.5))) * 255))⌋

/-- Model of `apply_gradient_adjustment` on an RGB raster (src/app.py 347-357):
`img.point(lut * 3)` applies the LUT to each channel value. -/
noncomputable def apply_gradient_adjustment (img : Raster) : Raster :=
  img.mapPx fun p => ⟨s_curve p.r.toNat, s_curve p.g.toNat, s_curve p.b.toNat⟩

/-- Pillow's fixed-point `MULDIV255(a, b)` = round(a*b/255):
`tmp = a*b + 128; ((tmp >> 8) + tmp) >> 8` (`Paste.c`).  `Image.composite
(channel, black, mask)` computes `MULDIV255(channel, mask)` per pixel. -/
def MULDIV255 (a b : ℤ) : ℤ :=
  let t := a * b + 128
  (t / 256 + t) / 256

/-- The vignette distance ratio `dist / max_r` at pixel `(x,y)` of a
`w×h` raster, with `cx = w // 2`, `cy = h // 2` (src/app.py 330-335). -/
noncomputable def vignetteRatio (w h x y : ℕ) : ℝ :=
  Real.sqrt (((x : ℝ) - (w / 2 : ℕ)) ^ 2 + ((y : ℝ) - (h / 2 : ℕ)) ^ 2) /
    Real.sqrt (((w / 2 : ℕ) : ℝ) ^ 2 + ((h / 2 : ℕ) : ℝ) ^ 2)

/-- Model of `darkness = int(255 - (ratio - 0.6) * 160) if ratio > 0.6 else 255`
(src/app.py 336). -/
noncomputable def vignette_raw_darkness (w h x y : ℕ) : ℤ :=
  if 0.6 < vignetteRatio w h x y then
    pyIntR (255 - (vignetteRatio w h x y - 0.6) * 160)
  else 255

/-- Model of `darkness = max(darkness, 140)` (src/app.py 337). -/
noncomputable def vignette_mask (w h x y : ℕ) : ℤ :=
  max (vignette_raw_darkness w h x y) 140

/-- The vignette mask entry at an existing pixel `(x,y)`: `none` models
the `ZeroDivisionError` raised by `dist / max_r` when `max_r = 0`
(that is, `w // 2 = 0` and `h // 2 = 0`, a 1×1 raster). -/
noncomputable def vignette_mask_checked (w h x y : ℕ) : Option ℤ :=
  if w / 2 = 0 ∧ h / 2 = 0 then none
  else some (vignette_mask w h x y)

/-- Raster height (`img.size[1]`). -/
def Raster.height (img : Raster) : ℕ := img.length

/-- Raster width (`img.size[0]`). -/
def Raster.width (img : Raster) : ℕ := (img.headD []).length

/-- Model of `apply_vignette` (src/app.py 327-344): build the radial mask and
composite each RGB channel over black through it.  `none` models the
`ZeroDivisionError` on a raster whose only pixel is its center
(`max_r = 0`), which can only happen for a nonempty raster with
`w // 2 = h // 2 = 0`. -/
noncomputable def apply_vignette (img : Raster) : Option Raster :=
  if 0 < img.width ∧ 0 < img.height ∧ img.width / 2 = 0 ∧ img.height / 2 = 0
  then none
  else some (img.mapIdx fun y row => row.mapIdx fun x p =>
    ⟨MULDIV255 p.r (vignette_mask img.width img.height x y),
     MULDIV255 p.g (vignette_mask img.width img.height x y),
     MULDIV255 p.b (vignette_mask img.width img.height x y)⟩)

-- ═══════════════════════════════════════════════════════════
--  AdaptivePlanner / PipelineOrchestrator stage selection
-- ═══════════════════════════════════════════════════════════

/-- Model of `steps_applied` of `run_enhancement_pipeline` (src/app.py 360-436):
the list of stage identifiers actually executed, in order. -/
def steps_applied (m : MetricSeverities) (raw : RawStats) : List String :=
  (if m.brightness ≠ good then ["exposure"] else ["exposure_fine"]) ++
  (if m.contrast ≠ good then ["contrast"] else ["contrast_fine"]) ++
  (if m.dynamic_range ≠ good then ["tone_mapping"] else []) ++
  (if raw.has_green_cast then ["green_cast"] else []) ++
  ["color_grading"] ++
  (if m.saturation ≠ good then ["saturation"] else []) ++
  (if m.sharpness ≠ good then ["sharpening"] else ["sharpening_gentle"]) ++
  (if raw.has_green_cast then [] else ["vignette"])

/-- Step-1 factor of `run_enhancement_pipeline` (src/app.py 377-386):
adaptive exposure when brightness severity is not good, else the fixed
1.02 touch-up. -/
def step1_exposure_factor (sev : Severity) (raw : RawStats) : ℚ :=
  if sev ≠ good then correct_exposure_factor raw else 1.02

/-- Model of `enhancements_applied` of `process_image` (src/enhance_photos.py
281-290): the tone-mapping stage is listed (and applied, line 235)
unconditionally. -/
def process_image_enhancements (a : RawStats) : List String :=
  ["Adaptive Exposure Correction", "Contrast Enhancement",
   "S-Curve Gradient Tone Mapping"] ++
  (if a.has_green_cast then ["Green Cast Removal"] else []) ++
  ["Cinematic Color Grading", "Saturation Optimization",
   "Professional Sharpening (UnsharpMask)"] ++
  (if a.has_green_cast then [] else ["Cinematic Vignette"])

/-- The stage sequence of `enhance_single_photo` (src/auto_enhance.py
176-187): exposure, contrast and the tone curve run unconditionally;
green-cast removal and vignette are gated on `has_green_cast`. -/
def auto_enhance_stages (a : RawStats) : List String :=
  ["exposure", "contrast", "tone_mapping"] ++
  (if a.has_green_cast then ["green_cast"] else []) ++
  ["color_grading", "saturation", "sharpening"] ++
  (if a.has_green_cast then [] else ["vignette"])

-- ═══════════════════════════════════════════════════════════
--  Grayscale-derived metrics used by `analyze_image_detailed`
-- ═══════════════════════════════════════════════════════════

/-- The `img.convert('L')` grid of luma values. -/
def grayGrid (img : Raster) : List (List ℤ) := img.map (List.map lumaL)

/-- Model of `dynamic_range = int(np.max(gray_arr)) - int(np.min(gray_arr))`
(src/app.py 75-76). -/
def dynamic_range_of (img : Raster) : ℤ :=
  let g := (grayGrid img).flatten
  (g.max?.getD 0) - (g.min?.getD 0)

/-- Validity of the raster produced by a fallible stage: whenever a
result exists, all its channels are in range. -/
def Raster.validOpt (o : Option Raster) : Prop :=
  ∀ out, o = some out → Raster.valid out

-- concrete inputs used in scenario theorems and witnesses -------------

/-- Uniform 2×2 gray raster with R=G=B=50 (spec §8 scenario). -/
def img50 : Raster :=
  [[⟨50, 50, 50⟩, ⟨50, 50, 50⟩], [⟨50, 50, 50⟩, ⟨50, 50, 50⟩]]

/-- A 1×2 black/white raster: its luma dynamic range is 255, so the
dynamic-range metric classifies as good. -/
def bw2 : Raster := [[⟨0, 0, 0⟩, ⟨255, 255, 255⟩]]

/-- Stats of a raster with a strong green cast (`g_mean=200`,
`r_mean=b_mean=150`, so `green_dominance = 50 > 15`). -/
def statsGreen : RawStats := ⟨150, 200, 150⟩

/-- Stats of a raster without green cast (`green_dominance = 5 ≤ 15`). -/
def statsNoGreen : RawStats := ⟨100, 105, 100⟩

/-- A single-pixel raster used as a generic kernel input. -/
def imgSample : Raster := [[⟨10, 200, 30⟩]]

/-- A 1×1 raster: its only pixel is its center, so the vignette stage
divides by `max_r = 0`. -/
def img1x1 : Raster := [[⟨0, 0, 0⟩]]

-- ═══════════════════════════════════════════════════════════
--  Analysis error taxonomy (spec §4.1 / §7)
-- ═══════════════════════════════════════════════════════════

/-- A raster's channel layout as supplied by the decoder. -/
inductive RasterMode where
  | RGB | RGBA | L | P | CMYK
deriving DecidableEq, Repr

/-- Modelled from the spec: the error taxonomy of §7.  The Python sources
contain no such errors (callers convert through PIL before analysis), so
the checked analysis entry point is modelled from spec §4.1
("fails with `UnsupportedFormat` if the raster's channel layout is
neither RGB nor RGBA; fails with `InvalidDimensions` if width or height
is 0"). -/
inductive AnalysisError where
  | UnsupportedFormat | InvalidDimensions
deriving DecidableEq, Repr

/-- Modelled from the spec: `analyze(raster)` with the §4.1 error
contract; on a well-formed input it returns the raw statistics of the
raster. -/
def analyze_checked (mode : RasterMode) (w h : ℕ) (img : Raster) :
    Except AnalysisError RawStats :=
  if mode ≠ RasterMode.RGB ∧ mode ≠ RasterMode.RGBA then
    .error .UnsupportedFormat
  else if w = 0 ∨ h = 0 then .error .InvalidDimensions
  else .ok (statsOf img)

-- ═══════════════════════════════════════════════════════════
--  Full detailed analysis (src/app.py 51-251) and the
--  orchestrated pipeline (src/app.py 360-458)
-- ═══════════════════════════════════════════════════════════

/-- Mean of a list of rationals (`np.mean` / `ImageStat` mean). -/
def qmean (l : List ℚ) : ℚ := l.sum / l.length

/-- Population variance of a list of rationals (`np.var`, and the square
of `ImageStat.Stat(img).stddev`). -/
def qvar (l : List ℚ) : ℚ :=
  ((l.map fun x => (x - qmean l) ^ 2).sum) / l.length

def channelR (img : Raster) : List ℚ := img.pixels.map fun p => (p.r : ℚ)

def channelG (img : Raster) : List ℚ := img.pixels.map fun p => (p.g : ℚ)

def channelB (img : Raster) : List ℚ := img.pixels.map fun p => (p.b : ℚ)

/-- Model of `overall_contrast = (r_std + g_std + b_std) / 3` (src/app.py 58);
the standard deviations are square roots, hence real. -/
noncomputable def overall_contrast_of (img : Raster) : ℝ :=
  (Real.sqrt (qvar (channelR img)) + Real.sqrt (qvar (channelG img)) +
    Real.sqrt (qvar (channelB img))) / 3

/-- The grayscale grid as rationals (`np.array(gray, dtype=np.float64)`). -/
def grayQ (img : Raster) : List (List ℚ) :=
  (grayGrid img).map (List.map fun z : ℤ => (z : ℚ))

/-- Grid access with out-of-range reads defaulting to 0 (never used for
in-range indices of the valid convolution below). -/
def gAt (g : List (List ℚ)) (y x : ℕ) : ℚ := (g.getD y []).getD x 0

/-- Model of `convolve2d(arr, [[0,1,0],[1,-4,1],[0,1,0]], mode='valid')`
(src/app.py 64-66) for grids with at least 3 rows and columns: the
(H−2)×(W−2) grid of 4-neighbour Laplacians, flattened. -/
def laplacian_valid (g : List (List ℚ)) : List ℚ :=
  ((List.range (g.length - 2)).map fun y =>
    (List.range ((g.headD []).length - 2)).map fun x =>
      gAt g y (x + 1) + gAt g (y + 2) (x + 1) + gAt g (y + 1) x +
        gAt g (y + 1) (x + 2) - 4 * gAt g (y + 1) (x + 1)).flatten

/-- Model of `sharpness_score = np.var(laplacian)` (src/app.py 67). -/
def sharpness_of (img : Raster) : ℚ := qvar (laplacian_valid (grayQ img))

/-- The S channel of Pillow's RGB→HSV conversion of one pixel:
`0` when `maxc = minc`, else the `UINT8` truncation of
`(maxc - minc) / maxc * 255`. -/
def pixel_saturation (p : Px) : ℤ :=
  if max p.r (max p.g p.b) = min p.r (min p.g p.b) then 0
  else pyInt (((max p.r (max p.g p.b) - min p.r (min p.g p.b) : ℤ) : ℚ)
    / ((max p.r (max p.g p.b) : ℤ) : ℚ) * 255)

/-- Model of `avg_saturation = np.mean(s_channel)` (src/app.py 70-72). -/
def avg_saturation_of (img : Raster) : ℚ :=
  qmean (img.pixels.map fun p => ((pixel_saturation p : ℤ) : ℚ))

/-- The diagnostics bundle of `analyze_image_detailed` (src/app.py
232-251): measured values, severities, issue texts, recommendations,
score, issue count, and the raw stats kept for the pipeline.  The
rounded display copies of the measured values (`round(x, 1)`) and the
fixed icon/label strings of the metric dicts are presentation data
derived from the same fields and are not repeated here. -/
structure DiagnosticsReport where
  brightness_value : ℚ
  contrast_value : ℝ
  color_cast_value : ℚ
  saturation_value : ℚ
  sharpness_value : ℚ
  dynamic_range_value : ℤ
  severities : MetricSeverities
  issues : List (Option String)
  recommendations : List (String × String)
  score : ℤ
  issues_found : ℕ
  raw : RawStats

/-- The recommendation list (src/app.py 200-223): one fixed action per
non-good metric with the metric's issue text as reason, always
"Cinematic Color Grading", and "Cinematic Vignette" iff the color-cast
severity is good. -/
def recommendations_of (sev : MetricSeverities)
    (ibr ict icc isat ish idr : Option String) : List (String × String) :=
  (if sev.brightness ≠ good then
    [("Adaptive Exposure Correction", ibr.getD "")] else []) ++
  (if sev.contrast ≠ good then
    [("Contrast Enhancement + S-Curve", ict.getD "")] else []) ++
  (if sev.color_cast ≠ good then
    [("Green Cast Removal", icc.getD "")] else []) ++
  (if sev.saturation ≠ good then
    [("Saturation Optimization", isat.getD "")] else []) ++
  (if sev.sharpness ≠ good then
    [("Professional Sharpening", ish.getD "")] else []) ++
  (if sev.dynamic_range ≠ good then
    [("Tone Mapping & Gradient Adjustment", idr.getD "")] else []) ++
  [("Cinematic Color Grading", "Professional look")] ++
  (if sev.color_cast = good then
    [("Cinematic Vignette", "Focus enhancement")] else [])

/-- Model of `total_issues` (src/app.py 202-206): number of non-good metrics. -/
def issues_found_of (sev : MetricSeverities) : ℕ :=
  (if sev.brightness ≠ good then 1 else 0) +
  (if sev.contrast ≠ good then 1 else 0) +
  (if sev.color_cast ≠ good then 1 else 0) +
  (if sev.saturation ≠ good then 1 else 0) +
  (if sev.sharpness ≠ good then 1 else 0) +
  (if sev.dynamic_range ≠ good then 1 else 0)

/-- Model of `analyze_image_detailed` (src/app.py 51-251). -/
noncomputable def analyze_image_detailed (img : Raster) : DiagnosticsReport :=
  let raw := statsOf img
  let b := raw.overall_brightness
  let c := overall_contrast_of img
  let gd := raw.green_dominance
  let sat := avg_saturation_of img
  let sh := sharpness_of img
  let dr := dynamic_range_of img
  let sev : MetricSeverities :=
    ⟨(brightness_class b).1, (contrast_class c).1, (color_cast_class gd).1,
     (saturation_class sat).1, (sharpness_class sh).1,
     (dynamic_range_class dr).1⟩
  { brightness_value := b
    contrast_value := c
    color_cast_value := gd
    saturation_value := sat
    sharpness_value := sh
    dynamic_range_value := dr
    severities := sev
    issues := [(brightness_class b).2, (contrast_class c).2,
      (color_cast_class gd).2, (saturation_class sat).2,
      (sharpness_class sh).2, (dynamic_range_class dr).2]
    recommendations := recommendations_of sev (brightness_class b).2
      (contrast_class c).2 (color_cast_class gd).2 (saturation_class sat).2
      (sharpness_class sh).2 (dynamic_range_class dr).2
    score := overall_score sev
    issues_found := issues_found_of sev
    raw := raw }

/-- Model of `run_enhancement_pipeline` (src/app.py 360-458) on a decoded RGB
raster: analyze, apply the eight stages in order with parameters frozen
from the analysis, re-analyze, and return the output raster, the applied
step list and the before/after diagnostics.  The unsharp-mask kernel
(Pillow `ImageFilter.UnsharpMask`, a Gaussian-blur convolution) is
abstracted as the function argument `sharpen radius percent threshold`;
`none` models the `ZeroDivisionError` of the vignette stage on a 1×1
raster. -/
noncomputable def run_enhancement_pipeline
    (sharpen : ℚ → ℚ → ℚ → Raster → Raster) (img : Raster) :
    Option (Raster × List String × DiagnosticsReport × DiagnosticsReport) :=
  let rep := analyze_image_detailed img
  let raw := rep.raw
  let m := rep.severities
  let img1 := if m.brightness ≠ good then correct_exposure img raw
    else brightness_enhance 1.02 img
  let img2 := if m.contrast ≠ good then
      contrast_enhance (enhance_contrast_factor rep.contrast_value) img1
    else contrast_enhance 1.05 img1
  let img3 := if m.dynamic_range ≠ good then apply_gradient_adjustment img2
    else img2
  let img4 := if raw.has_green_cast then remove_green_cast img3 raw else img3
  let img5 := apply_color_grading img4 raw
  let img6 := if m.saturation ≠ good then optimize_saturation img5 raw
    else img5
  let img7 := if m.sharpness ≠ good then sharpen 1.5 80 3 img6
    else sharpen 0.8 40 4 img6
  match (if raw.has_green_cast then some img7 else apply_vignette img7) with
  | none => none
  | some img8 =>
      some (img8, steps_applied m raw, rep, analyze_image_detailed img8)

-- helper lemmas --------------------------------------------------------

theorem penalty_nonneg (s : Severity) : 0 ≤ penalty s := by
  cases s <;> decide

theorem overall_score_eq (m : MetricSeverities) :
    overall_score m = max 0 (min 100 (100 - totalPenalty m)) := by
  unfold overall_score totalPenalty
  ring_nf

-- ═══════════════════════════════════════════════════════════
--  Claim theorems (first batch)
-- ═══════════════════════════════════════════════════════════

/-- Claim C3: For every set of classified metrics, the overall quality
score equals 100 minus the sum over the six metrics of the penalty of
that metric's severity (good 0, mild 5, moderate 12, severe 20), clamped
to `[0,100]`; an all-good image scores exactly 100, and each non-good
metric reduces the score by exactly its penalty until the clamp at 0
(the upper clamp at 100 is never active, since penalties are
nonnegative). -/
theorem score_is_clamped_penalty_sum :
    (∀ m : MetricSeverities,
        overall_score m = max 0 (min 100 (100 - totalPenalty m)) ∧
        overall_score m = max 0 (100 - totalPenalty m)) ∧
    overall_score allGoodMetrics = 100 ∧
    penalty good = 0 ∧ penalty mild = 5 ∧
    penalty moderate = 12 ∧ penalty severe = 20 := by
  refine ⟨fun m => ⟨overall_score_eq m, ?_⟩, by decide, rfl, rfl, rfl, rfl⟩
  have h1 := penalty_nonneg m.brightness
  have h2 := penalty_nonneg m.contrast
  have h3 := penalty_nonneg m.color_cast
  have h4 := penalty_nonneg m.saturation
  have h5 := penalty_nonneg m.sharpness
  have h6 := penalty_nonneg m.dynamic_range
  rw [overall_score_eq]
  unfold totalPenalty at *
  omega

-- pyInt / pyIntR helper lemmas -----------------------------------------

theorem pyInt_nonneg {q : ℚ} (h : 0 ≤ q) : 0 ≤ pyInt q := by
  unfold pyInt
  rw [if_pos h]
  exact Int.floor_nonneg.mpr h

theorem pyInt_le {q : ℚ} {c : ℤ} (h : q ≤ (c : ℚ)) : pyInt q ≤ c := by
  unfold pyInt
  split
  · exact (Int.floor_le_floor h).trans_eq (Int.floor_intCast c)
  · exact Int.ceil_le.mpr h

theorem pyIntR_le {x : ℝ} {c : ℤ} (h : x ≤ (c : ℝ)) : pyIntR x ≤ c := by
  unfold pyIntR
  split
  · exact (Int.floor_le_floor h).trans_eq (Int.floor_intCast c)
  · exact Int.ceil_le.mpr h

theorem le_pyIntR {x : ℝ} {c : ℤ} (hx : 0 ≤ x) (h : (c : ℝ) ≤ x) :
    c ≤ pyIntR x := by
  unfold pyIntR
  rw [if_pos hx]
  exact Int.le_floor.mpr h

-- kernel range preservation helpers ------------------------------------

theorem px_valid_mk {a b c : ℤ} :
    Px.valid ⟨a, b, c⟩ ↔
      0 ≤ a ∧ a ≤ 255 ∧ 0 ≤ b ∧ b ≤ 255 ∧ 0 ≤ c ∧ c ≤ 255 :=
  Iff.rfl

theorem green_cast_pixel_valid {corr : ℚ} (hc : 0 ≤ corr) {p : Px}
    (hp : p.valid) : (green_cast_pixel corr p).valid := by
  obtain ⟨h1, h2, h3, h4, h5, h6⟩ := hp
  unfold green_cast_pixel
  split
  · exact ⟨h1, h2, h3, h4, h5, h6⟩
  · rw [px_valid_mk]
    have hr : (0 : ℚ) ≤ (p.r : ℚ) + corr * 0.2 := by
      have : (0 : ℚ) ≤ (p.r : ℚ) := by exact_mod_cast h1
      nlinarith
    have hg : (p.g : ℚ) - corr * 0.6 ≤ ((255 : ℤ) : ℚ) := by
      have : (p.g : ℚ) ≤ 255 := by exact_mod_cast h4
      push_cast
      nlinarith
    have hb : (0 : ℚ) ≤ (p.b : ℚ) + corr * 0.15 := by
      have : (0 : ℚ) ≤ (p.b : ℚ) := by exact_mod_cast h5
      nlinarith
    exact ⟨le_min (by norm_num) (pyInt_nonneg hr), min_le_left _ _,
      le_max_left _ _, max_le (by norm_num) (pyInt_le hg),
      le_min (by norm_num) (pyInt_nonneg hb), min_le_left _ _⟩

theorem color_grade_pixel_valid {p : Px} (hp : p.valid) :
    (color_grade_pixel p).valid := by
  obtain ⟨h1, h2, h3, h4, h5, h6⟩ := hp
  unfold color_grade_pixel
  split
  · rw [px_valid_mk]
    omega
  · split <;> (rw [px_valid_mk] ; omega)

theorem mapPx_valid {f : Px → Px} (hf : ∀ p, p.valid → (f p).valid)
    {img : Raster} (h : img.valid) : (img.mapPx f).valid := by
  intro row hrow p hp
  unfold Raster.mapPx at hrow
  rw [List.mem_map] at hrow
  obtain ⟨row0, hrow0, rfl⟩ := hrow
  rw [List.mem_map] at hp
  obtain ⟨p0, hp0, rfl⟩ := hp
  exact hf p0 (h row0 hrow0 p0 hp0)

theorem s_curve_nonneg (i : ℕ) : 0 ≤ s_curve i :=
  Int.floor_nonneg.mpr (le_max_left _ _)

theorem s_curve_le_255 (i : ℕ) : s_curve i ≤ 255 := by
  unfold s_curve
  have h : max 0 (min 255 (0.5 * (1 + Real.tanh (2.5 * ((i : ℝ) / 255 - 0.5))) * 255))
      ≤ ((255 : ℤ) : ℝ) := by
    push_cast
    exact max_le (by norm_num) (min_le_left _ _)
  exact (Int.floor_le_floor h).trans_eq (Int.floor_intCast 255)

theorem MULDIV255_bounds {a b : ℤ} (ha : 0 ≤ a) (ha' : a ≤ 255)
    (hb : 0 ≤ b) (hb' : b ≤ 255) :
    0 ≤ MULDIV255 a b ∧ MULDIV255 a b ≤ 255 := by
  have h1 : 0 ≤ a * b := mul_nonneg ha hb
  have h2 : a * b ≤ 65025 := by nlinarith
  have key : ∀ t : ℤ, 0 ≤ t → t ≤ 65025 →
      0 ≤ ((t + 128) / 256 + (t + 128)) / 256 ∧
        ((t + 128) / 256 + (t + 128)) / 256 ≤ 255 := by
    intro t ht1 ht2
    omega
  exact key (a * b) h1 h2

theorem vignette_raw_darkness_le (w h x y : ℕ) :
    vignette_raw_darkness w h x y ≤ 255 := by
  unfold vignette_raw_darkness
  split
  · apply pyIntR_le
    push_cast
    nlinarith [‹(0.6 : ℝ) < vignetteRatio w h x y›]
  · norm_num

theorem vignette_mask_mem_range (w h x y : ℕ) :
    140 ≤ vignette_mask w h x y ∧ vignette_mask w h x y ≤ 255 :=
  ⟨le_max_right _ _, max_le (vignette_raw_darkness_le w h x y) (by norm_num)⟩

theorem mem_mapIdx' {α β : Type _} {f : ℕ → α → β} {l : List α} {b : β}
    (hb : b ∈ l.mapIdx f) : ∃ i : Fin l.length, b = f i (l.get i) := by
  rw [List.mapIdx_eq_ofFn, List.mem_ofFn] at hb
  obtain ⟨i, hi⟩ := hb
  exact ⟨i, hi.symm⟩

-- ═══════════════════════════════════════════════════════════
--  C1: range invariant of the per-pixel kernels
-- ═══════════════════════════════════════════════════════════

/-- Claim C1: For every transform stage and every input raster, every
channel value of the output raster lies in [0,255]: the per-pixel kernels
(green-cast removal, color grading, vignette, tone-curve LUT) clamp their
arithmetic and never overflow or wrap. -/
theorem kernels_preserve_channel_range :
    (∀ (a : RawStats) (img : Raster), img.valid →
        (remove_green_cast img a).valid) ∧
    (∀ (a : RawStats) (img : Raster), img.valid →
        (apply_color_grading img a).valid) ∧
    (∀ img : Raster, img.valid → Raster.validOpt (apply_vignette img)) ∧
    (∀ img : Raster, img.valid → (apply_gradient_adjustment img).valid) := by
  refine ⟨?_, ?_, ?_, ?_⟩
  · intro a img h
    unfold remove_green_cast
    split
    · rename_i hgc
      have h15 : (15 : ℚ) < a.green_dominance := by
        have := of_decide_eq_true hgc
        exact this
      have hc : (0 : ℚ) ≤ min (a.green_dominance * 0.4) 25 := by
        apply le_min <;> nlinarith
      exact mapPx_valid (fun p hp => green_cast_pixel_valid hc hp) h
    · exact h
  · intro a img h
    exact mapPx_valid (fun p hp => color_grade_pixel_valid hp) h
  · intro img h out hout
    unfold apply_vignette at hout
    split at hout
    · exact absurd hout (by simp)
    · rw [Option.some_inj] at hout
      subst hout
      intro row hrow p hp
      obtain ⟨yi, rfl⟩ := mem_mapIdx' hrow
      obtain ⟨xi, rfl⟩ := mem_mapIdx' hp
      have hpx : (img.get yi).get xi ∈ img.get yi :=
        List.get_mem (img.get yi) xi.1 xi.2
      have hrow' : img.get yi ∈ img := List.get_mem img yi.1 yi.2
      have hv := h _ hrow' _ hpx
      obtain ⟨h1, h2, h3, h4, h5, h6⟩ := hv
      obtain ⟨hm1, hm2⟩ := vignette_mask_mem_range
        img.width img.height xi yi
      rw [px_valid_mk]
      refine ⟨(MULDIV255_bounds h1 h2 (by omega) hm2).1,
        (MULDIV255_bounds h1 h2 (by omega) hm2).2,
        (MULDIV255_bounds h3 h4 (by omega) hm2).1,
        (MULDIV255_bounds h3 h4 (by omega) hm2).2,
        (MULDIV255_bounds h5 h6 (by omega) hm2).1,
        (MULDIV255_bounds h5 h6 (by omega) hm2).2⟩
  · intro img h
    apply mapPx_valid (fun p hp => ?_) h
    rw [px_valid_mk]
    exact ⟨s_curve_nonneg _, s_curve_le_255 _, s_curve_nonneg _,
      s_curve_le_255 _, s_curve_nonneg _, s_curve_le_255 _⟩

/-- Witness for C1 at a concrete raster and concrete green-cast stats. -/
theorem kernels_preserve_channel_range_witness :
    imgSample.valid ∧
    (remove_green_cast imgSample statsGreen).valid ∧
    (apply_color_grading imgSample statsGreen).valid ∧
    Raster.validOpt (apply_vignette imgSample) ∧
    (apply_gradient_adjustment imgSample).valid :=
  ⟨by decide,
   kernels_preserve_channel_range.1 statsGreen imgSample (by decide),
   kernels_preserve_channel_range.2.1 statsGreen imgSample (by decide),
   kernels_preserve_channel_range.2.2.1 imgSample (by decide),
   kernels_preserve_channel_range.2.2.2 imgSample (by decide)⟩

-- ═══════════════════════════════════════════════════════════
--  C2: green-cast no-op; vignette/green-cast complementarity
-- ═══════════════════════════════════════════════════════════

/-- Claim C2: Color-cast removal leaves the raster unchanged when
`has_green_cast` (`green_dominance > 15`) is false; in
`run_enhancement_pipeline` the vignette stage is applied iff
`has_green_cast` is false and the color-cast removal stage is applied iff
it is true — mutually exclusive and complementary. -/
theorem green_cast_noop_and_complementary :
    (∀ (a : RawStats) (img : Raster),
        a.has_green_cast = false → remove_green_cast img a = img) ∧
    (∀ (m : MetricSeverities) (a : RawStats),
        ("vignette" ∈ steps_applied m a ↔ a.has_green_cast = false) ∧
        ("green_cast" ∈ steps_applied m a ↔ a.has_green_cast = true) ∧
        ¬("vignette" ∈ steps_applied m a ∧ "green_cast" ∈ steps_applied m a) ∧
        ("vignette" ∈ steps_applied m a ∨ "green_cast" ∈ steps_applied m a)) := by
  constructor
  · intro a img hgc
    unfold remove_green_cast
    rw [hgc]
    simp
  · intro m a
    rcases hgc : a.has_green_cast with _ | _ <;>
      (unfold steps_applied ; rw [hgc] ; split_ifs <;> simp_all)

/-- Witness for C2 at concrete stats without green cast. -/
theorem green_cast_noop_and_complementary_witness :
    statsNoGreen.has_green_cast = false ∧
    remove_green_cast imgSample statsNoGreen = imgSample ∧
    ("vignette" ∈ steps_applied allGoodMetrics statsNoGreen ↔
      statsNoGreen.has_green_cast = false) := by
  have hgc : statsNoGreen.has_green_cast = false := by
    unfold RawStats.has_green_cast RawStats.green_dominance statsNoGreen
    rw [decide_eq_false_iff_not]
    norm_num
  exact ⟨hgc, green_cast_noop_and_complementary.1 statsNoGreen imgSample hgc,
    (green_cast_noop_and_complementary.2 allGoodMetrics statsNoGreen).1⟩

-- ═══════════════════════════════════════════════════════════
--  C4: tone-curve gating (corrected)
-- ═══════════════════════════════════════════════════════════

/-- Claim C4, counterexample: The claim says the tone-curve stage is
applied iff the dynamic-range severity is not good, citing all three
pipelines.  For the 1×2 black/white raster the dynamic range is 255 and
classifies as good, yet `process_image` (src/enhance_photos.py 233-235)
and `enhance_single_photo` (src/auto_enhance.py 179) apply the tone
curve unconditionally. -/
theorem tone_curve_applied_despite_good_dynamic_range :
    dynamic_range_of bw2 = 255 ∧
    dynamic_range_class (dynamic_range_of bw2) = (good, none) ∧
    "S-Curve Gradient Tone Mapping" ∈ process_image_enhancements (statsOf bw2) ∧
    "tone_mapping" ∈ auto_enhance_stages (statsOf bw2) := by
  refine ⟨by decide, by decide, ?_, ?_⟩
  · unfold process_image_enhancements
    split_ifs <;> simp
  · unfold auto_enhance_stages
    split_ifs <;> simp

/-- Claim C4, amended: In `run_enhancement_pipeline` (src/app.py) the
tone-curve stage is in the applied stages iff the dynamic-range severity
is not good; the batch pipelines `process_image` (src/enhance_photos.py)
and `enhance_single_photo` (src/auto_enhance.py) apply the tone curve
unconditionally, for every analysis result. -/
theorem tone_curve_gating_amended :
    (∀ (m : MetricSeverities) (a : RawStats),
        "tone_mapping" ∈ steps_applied m a ↔ m.dynamic_range ≠ good) ∧
    (∀ a : RawStats,
        "S-Curve Gradient Tone Mapping" ∈ process_image_enhancements a) ∧
    (∀ a : RawStats, "tone_mapping" ∈ auto_enhance_stages a) := by
  refine ⟨fun m a => ?_, fun a => ?_, fun a => ?_⟩
  · rcases hgc : a.has_green_cast with _ | _ <;>
      (unfold steps_applied ; rw [hgc] ; split_ifs <;> simp_all)
  · unfold process_image_enhancements
    split_ifs <;> simp
  · unfold auto_enhance_stages
    split_ifs <;> simp

-- ═══════════════════════════════════════════════════════════
--  C7: 2×2 uniform gray raster scenario
-- ═══════════════════════════════════════════════════════════

theorem statsOf_img50 : statsOf img50 = ⟨50, 50, 50⟩ := by
  unfold statsOf img50 Raster.pixels
  norm_num

theorem pyBlend_factor50 : pyBlend (167/128) 0 50 = 65 := by
  unfold pyBlend pyInt
  norm_num

/-- Claim C7: For the uniform 2×2 gray raster with R=G=B=50: measured
brightness is 50 and classifies severe ("Very underexposed"); the
pipeline's exposure step uses the adaptive factor
`min(1+(128−50)/256, 1.35) = 167/128 = 1.3046875`, not the fixed 1.02
fallback; and every resulting channel is `min(255, round(50*1.3046875))
= 65`. -/
theorem scenario_2x2_gray50 :
    (statsOf img50).overall_brightness = 50 ∧
    brightness_class (statsOf img50).overall_brightness =
      (severe, some "Very underexposed") ∧
    (statsOf img50).is_underexposed = true ∧
    step1_exposure_factor
      (brightness_class (statsOf img50).overall_brightness).1
      (statsOf img50) = 167/128 ∧
    (167/128 : ℚ) = 1.3046875 ∧
    step1_exposure_factor
      (brightness_class (statsOf img50).overall_brightness).1
      (statsOf img50) ≠ 1.02 ∧
    brightness_enhance
      (step1_exposure_factor
        (brightness_class (statsOf img50).overall_brightness).1
        (statsOf img50)) img50 =
      [[⟨65, 65, 65⟩, ⟨65, 65, 65⟩], [⟨65, 65, 65⟩, ⟨65, 65, 65⟩]] ∧
    (65 : ℤ) = min 255 (round ((50 : ℚ) * 1.3046875)) := by
  rw [statsOf_img50]
  have hb : (RawStats.mk 50 50 50).overall_brightness = 50 := by
    unfold RawStats.overall_brightness
    norm_num
  have hcl : brightness_class 50 = (severe, some "Very underexposed") := by
    unfold brightness_class
    rw [if_pos (by norm_num)]
  have hund : (RawStats.mk 50 50 50).is_underexposed = true := by
    unfold RawStats.is_underexposed
    rw [decide_eq_true_iff]
    rw [hb]
    norm_num
  have hfac : step1_exposure_factor severe (RawStats.mk 50 50 50) = 167/128 := by
    unfold step1_exposure_factor correct_exposure_factor
    rw [if_pos (by decide), if_pos (by rw [hund])]
    rw [hb]
    rw [min_eq_left (by norm_num)]
    norm_num
  refine ⟨hb, by rw [hb, hcl], hund, by rw [hb, hcl] ; exact hfac,
    by norm_num, ?_, ?_, ?_⟩
  · rw [hb, hcl]
    simp only []
    rw [hfac]
    norm_num
  · rw [hb, hcl]
    simp only []
    rw [hfac]
    unfold brightness_enhance Raster.mapPx img50
    simp [pyBlend_factor50]
  · rw [round_eq]
    norm_num

-- ═══════════════════════════════════════════════════════════
--  C5: analysis error contract (modelled from the spec)
-- ═══════════════════════════════════════════════════════════

/-- Claim C5: Analysis fails with `UnsupportedFormat` when the channel
layout is neither RGB nor RGBA; otherwise it fails with
`InvalidDimensions` when width or height is 0; for rasters satisfying
both preconditions it succeeds. -/
theorem analyze_error_contract :
    ∀ (mode : RasterMode) (w h : ℕ) (img : Raster),
      (mode ≠ RasterMode.RGB ∧ mode ≠ RasterMode.RGBA →
        analyze_checked mode w h img = .error .UnsupportedFormat) ∧
      ((mode = RasterMode.RGB ∨ mode = RasterMode.RGBA) → (w = 0 ∨ h = 0) →
        analyze_checked mode w h img = .error .InvalidDimensions) ∧
      ((mode = RasterMode.RGB ∨ mode = RasterMode.RGBA) → w ≠ 0 → h ≠ 0 →
        analyze_checked mode w h img = .ok (statsOf img)) := by
  intro mode w h img
  refine ⟨fun hm => ?_, fun hm hwh => ?_, fun hm hw hh => ?_⟩
  · unfold analyze_checked
    rw [if_pos hm]
  · unfold analyze_checked
    rw [if_neg (by rcases hm with hm | hm <;> simp [hm]), if_pos hwh]
  · unfold analyze_checked
    rw [if_neg (by rcases hm with hm | hm <;> simp [hm]),
      if_neg (by simp [hw, hh])]

/-- Witness for C5: the three branches at concrete inputs. -/
theorem analyze_error_contract_witness :
    analyze_checked RasterMode.L 2 2 imgSample = .error .UnsupportedFormat ∧
    analyze_checked RasterMode.RGB 0 2 imgSample = .error .InvalidDimensions ∧
    analyze_checked RasterMode.RGB 1 1 imgSample = .ok (statsOf imgSample) :=
  ⟨(analyze_error_contract RasterMode.L 2 2 imgSample).1 (by decide),
   (analyze_error_contract RasterMode.RGB 0 2 imgSample).2.1
     (Or.inl rfl) (Or.inl rfl),
   (analyze_error_contract RasterMode.RGB 1 1 imgSample).2.2
     (Or.inl rfl) (by decide) (by decide)⟩

-- ═══════════════════════════════════════════════════════════
--  Analytic facts about tanh needed for the tone-curve LUT
-- ═══════════════════════════════════════════════════════════

theorem tanh_eq_one_sub (x : ℝ) :
    Real.tanh x = 1 - 2 / (Real.exp (2 * x) + 1) := by
  have hx : (0 : ℝ) < Real.exp x := Real.exp_pos x
  have h2x : Real.exp (2 * x) = Real.exp x * Real.exp x := by
    rw [two_mul, Real.exp_add]
  have h1 : Real.exp x ≠ 0 := ne_of_gt hx
  have h2 : Real.exp x * Real.exp x + 1 ≠ 0 := by positivity
  rw [Real.tanh_eq_sinh_div_cosh, Real.sinh_eq, Real.cosh_eq, h2x,
    Real.exp_neg]
  field_simp
  ring

theorem tanh_mono {x y : ℝ} (h : x ≤ y) : Real.tanh x ≤ Real.tanh y := by
  rw [tanh_eq_one_sub, tanh_eq_one_sub]
  have hx : (0 : ℝ) < Real.exp (2 * x) + 1 := by positivity
  have hxy : Real.exp (2 * x) + 1 ≤ Real.exp (2 * y) + 1 := by
    have := Real.exp_le_exp.mpr (by linarith : 2 * x ≤ 2 * y)
    linarith
  have hd : 2 / (Real.exp (2 * y) + 1) ≤ 2 / (Real.exp (2 * x) + 1) := by
    gcongr
  linarith

theorem tanh_lt_one' (x : ℝ) : Real.tanh x < 1 := by
  rw [tanh_eq_one_sub]
  have hx : (0 : ℝ) < Real.exp (2 * x) + 1 := by positivity
  have : (0 : ℝ) < 2 / (Real.exp (2 * x) + 1) := by positivity
  linarith

theorem neg_one_lt_tanh' (x : ℝ) : -1 < Real.tanh x := by
  rw [tanh_eq_one_sub]
  have hx : (0 : ℝ) < Real.exp (2 * x) := Real.exp_pos _
  have h1 : (0 : ℝ) < Real.exp (2 * x) + 1 := by positivity
  have : 2 / (Real.exp (2 * x) + 1) < 2 := by
    rw [div_lt_iff h1]
    linarith
  linarith

theorem exp_half_sq : Real.exp (1/2 : ℝ) * Real.exp (1/2 : ℝ) = Real.exp 1 := by
  rw [← Real.exp_add]
  norm_num

theorem exp_half_gt : (1.648 : ℝ) < Real.exp (1/2) := by
  have h := Real.exp_one_gt_d9
  have hp : (0 : ℝ) < Real.exp (1/2) := Real.exp_pos _
  nlinarith [exp_half_sq]

theorem exp_half_lt : Real.exp (1/2 : ℝ) < 1.6488 := by
  have h := Real.exp_one_lt_d9
  have hp : (0 : ℝ) < Real.exp (1/2) := Real.exp_pos _
  nlinarith [exp_half_sq]

theorem exp_52_eq :
    Real.exp (5/2 : ℝ) = Real.exp 1 * Real.exp 1 * Real.exp (1/2) := by
  rw [← Real.exp_add, ← Real.exp_add]
  norm_num

theorem exp_52_gt : (11.76 : ℝ) < Real.exp (5/2) := by
  have h1 := Real.exp_one_gt_d9
  have h2 := exp_half_gt
  have hp : (0 : ℝ) < Real.exp 1 := Real.exp_pos _
  have he2 : (7.389 : ℝ) < Real.exp 1 * Real.exp 1 := by nlinarith
  rw [exp_52_eq]
  nlinarith

theorem exp_52_lt : Real.exp (5/2 : ℝ) < 12.19 := by
  have h1 := Real.exp_one_lt_d9
  have h2 := exp_half_lt
  have hp : (0 : ℝ) < Real.exp 1 := Real.exp_pos _
  have hp2 : (0 : ℝ) < Real.exp (1/2) := Real.exp_pos _
  have he2 : Real.exp 1 * Real.exp 1 < 7.38905611 := by nlinarith
  rw [exp_52_eq]
  nlinarith

theorem tanh_54_bounds :
    (215/255 : ℝ) < Real.tanh (5/4) ∧ Real.tanh (5/4) < 217/255 := by
  have h : Real.tanh (5/4 : ℝ) = 1 - 2 / (Real.exp (5/2) + 1) := by
    have := tanh_eq_one_sub (5/4 : ℝ)
    rw [show (2 : ℝ) * (5/4) = 5/2 by norm_num] at this
    exact this
  have hgt := exp_52_gt
  have hlt := exp_52_lt
  have hp : (0 : ℝ) < Real.exp (5/2) + 1 := by positivity
  constructor
  · rw [h]
    have hd : 2 / (Real.exp (5/2) + 1) < 40/255 := by
      rw [div_lt_div_iff hp (by norm_num)]
      nlinarith
    linarith
  · rw [h]
    have hd : (38/255 : ℝ) < 2 / (Real.exp (5/2) + 1) := by
      rw [div_lt_div_iff (by norm_num) hp]
      nlinarith
    linarith

theorem exp_inv102_gt : (128/127 : ℝ) < Real.exp (1/102) := by
  have h := Real.add_one_lt_exp (x := (1/102 : ℝ)) (by norm_num)
  nlinarith

theorem exp_inv102_lt : Real.exp (1/102 : ℝ) < 102/101 := by
  have h := Real.add_one_lt_exp (x := (-(1/102) : ℝ)) (by norm_num)
  rw [Real.exp_neg] at h
  have hp : (0 : ℝ) < Real.exp (1/102) := Real.exp_pos _
  have h2 : (101/102 : ℝ) < (Real.exp (1/102))⁻¹ := by linarith
  calc Real.exp (1/102 : ℝ) = ((Real.exp (1/102 : ℝ))⁻¹)⁻¹ := (inv_inv _).symm
    _ < ((101/102 : ℝ))⁻¹ := inv_lt_inv_of_lt (by norm_num) h2
    _ = 102/101 := by norm_num

theorem tanh_inv204_bounds :
    (1/255 : ℝ) < Real.tanh (1/204) ∧ Real.tanh (1/204) < 3/255 := by
  have h : Real.tanh (1/204 : ℝ) = 1 - 2 / (Real.exp (1/102) + 1) := by
    have := tanh_eq_one_sub (1/204 : ℝ)
    rw [show (2 : ℝ) * (1/204) = 1/102 by norm_num] at this
    exact this
  have hgt := exp_inv102_gt
  have hlt := exp_inv102_lt
  have hp : (0 : ℝ) < Real.exp (1/102) + 1 := by positivity
  constructor
  · rw [h]
    have hd : 2 / (Real.exp (1/102) + 1) < 254/255 := by
      rw [div_lt_div_iff hp (by norm_num)]
      nlinarith
    linarith
  · rw [h]
    have hd : (252/255 : ℝ) < 2 / (Real.exp (1/102) + 1) := by
      rw [div_lt_div_iff (by norm_num) hp]
      nlinarith
    linarith

-- s_curve evaluation helpers -------------------------------------------

theorem s_curve_val_eq (i : ℕ) (n : ℤ) (hn255 : n ≤ 254)
    (h1 : (n : ℝ) ≤ 0.5 * (1 + Real.tanh (2.5 * ((i : ℝ) / 255 - 0.5))) * 255)
    (h2 : 0.5 * (1 + Real.tanh (2.5 * ((i : ℝ) / 255 - 0.5))) * 255 < n + 1)
    (hn0 : 0 ≤ n) :
    s_curve i = n := by
  unfold s_curve
  have hvlt : 0.5 * (1 + Real.tanh (2.5 * ((i : ℝ) / 255 - 0.5))) * 255
      ≤ 255 := by
    have : ((n : ℝ) + 1) ≤ 255 := by exact_mod_cast by omega
    linarith
  have hv0 : (0 : ℝ) ≤ 0.5 * (1 + Real.tanh (2.5 * ((i : ℝ) / 255 - 0.5))) * 255 := by
    have hcast : (0 : ℝ) ≤ (n : ℝ) := by exact_mod_cast hn0
    linarith
  rw [min_eq_right hvlt, max_eq_right hv0]
  rw [Int.floor_eq_iff]
  exact ⟨h1, h2⟩

theorem s_curve_mono {i j : ℕ} (hij : i ≤ j) : s_curve i ≤ s_curve j := by
  unfold s_curve
  apply Int.floor_le_floor
  have hc : (i : ℝ) ≤ (j : ℝ) := Nat.cast_le.mpr hij
  have ht : Real.tanh (2.5 * ((i : ℝ) / 255 - 0.5))
      ≤ Real.tanh (2.5 * ((j : ℝ) / 255 - 0.5)) := by
    apply tanh_mono
    nlinarith
  have hv : 0.5 * (1 + Real.tanh (2.5 * ((i : ℝ) / 255 - 0.5))) * 255
      ≤ 0.5 * (1 + Real.tanh (2.5 * ((j : ℝ) / 255 - 0.5))) * 255 := by
    nlinarith
  exact max_le_max (le_refl 0) (min_le_min (le_refl 255) hv)

theorem s_curve_zero : s_curve 0 = 19 := by
  apply s_curve_val_eq 0 19 (by norm_num) ?_ ?_ (by norm_num) <;>
  · rw [show (2.5 : ℝ) * ((0 : ℕ) / 255 - 0.5) = -(5/4) by norm_num,
      Real.tanh_neg]
    obtain ⟨hl, hu⟩ := tanh_54_bounds
    norm_num
    linarith

theorem s_curve_127 : s_curve 127 = 126 := by
  apply s_curve_val_eq 127 126 (by norm_num) ?_ ?_ (by norm_num) <;>
  · rw [show (2.5 : ℝ) * ((127 : ℕ) / 255 - 0.5) = -(1/204) by norm_num,
      Real.tanh_neg]
    obtain ⟨hl, hu⟩ := tanh_inv204_bounds
    norm_num
    linarith

theorem s_curve_255 : s_curve 255 = 235 := by
  apply s_curve_val_eq 255 235 (by norm_num) ?_ ?_ (by norm_num) <;>
  · rw [show (2.5 : ℝ) * ((255 : ℕ) / 255 - 0.5) = 5/4 by norm_num]
    obtain ⟨hl, hu⟩ := tanh_54_bounds
    norm_num
    linarith

-- ═══════════════════════════════════════════════════════════
--  C6: LUT monotone, lut[0] ≈ 19, lut[127] ≈ 127
-- ═══════════════════════════════════════════════════════════

/-- Claim C6: The 256-entry tone-curve LUT built from
`clamp(255*0.5*(1+tanh(2.5*(i/255−0.5))))` is non-decreasing, and its
endpoint values satisfy `lut[0] = 19` (≈ 19, not 0) and `lut[127] = 126`
(≈ 127, within one of 127). -/
theorem tone_curve_lut_monotone_and_endpoints :
    (∀ i j : ℕ, i ≤ j → s_curve i ≤ s_curve j) ∧
    s_curve 0 = 19 ∧ s_curve 0 ≠ 0 ∧
    s_curve 127 = 126 ∧ (s_curve 127 - 127).natAbs ≤ 1 := by
  refine ⟨fun i j hij => s_curve_mono hij, s_curve_zero, ?_, s_curve_127, ?_⟩
  · rw [s_curve_zero]
    norm_num
  · rw [s_curve_127]
    norm_num

/-- Witness for C6: monotonicity applied at the concrete pair (0, 127). -/
theorem tone_curve_lut_monotone_and_endpoints_witness :
    (0 : ℕ) ≤ 127 ∧ s_curve 0 ≤ s_curve 127 ∧ s_curve 0 = 19 :=
  ⟨by decide,
   tone_curve_lut_monotone_and_endpoints.1 0 127 (by decide),
   tone_curve_lut_monotone_and_endpoints.2.1⟩

-- ═══════════════════════════════════════════════════════════
--  C9: LUT maximum is 235
-- ═══════════════════════════════════════════════════════════

/-- Claim C9: The tone-curve LUT's maximum entry is `lut[255] = 235`, not
255: every input channel value `v ∈ [0,255]` maps to `lut[v] ≤ 235`, so
the S-curve stage darkens pure white and its output channels never
exceed 235. -/
theorem tone_curve_lut_max_235 :
    s_curve 255 = 235 ∧ s_curve 255 ≠ 255 ∧
    (∀ v : ℕ, v ≤ 255 → s_curve v ≤ 235) := by
  refine ⟨s_curve_255, ?_, fun v hv => ?_⟩
  · rw [s_curve_255]
    norm_num
  · calc s_curve v ≤ s_curve 255 := s_curve_mono hv
      _ = 235 := s_curve_255

/-- Witness for C9 at the concrete channel value 200. -/
theorem tone_curve_lut_max_235_witness :
    (200 : ℕ) ≤ 255 ∧ s_curve 200 ≤ 235 :=
  ⟨by decide, tone_curve_lut_max_235.2.2 200 (by decide)⟩

-- ═══════════════════════════════════════════════════════════
--  C10: vignette mask range (corrected)
-- ═══════════════════════════════════════════════════════════

/-- Claim C10, counterexample: The claim quantifies over every raster with
positive width and height, but on a 1×1 raster `max_r = sqrt(0) = 0` and
`dist / max_r` raises `ZeroDivisionError`: the vignette stage produces
no mask at all, so the claimed mask-range property fails as stated. -/
theorem vignette_divides_by_zero_on_1x1 :
    img1x1.width = 1 ∧ img1x1.height = 1 ∧
    apply_vignette img1x1 = none ∧
    vignette_mask_checked 1 1 0 0 = none := by
  refine ⟨by decide, by decide, ?_, ?_⟩
  · unfold apply_vignette
    rw [if_pos (by decide)]
  · unfold vignette_mask_checked
    rw [if_pos (by decide)]

/-- Claim C10, amended: For every raster with positive width and height
other than 1×1 (where the stage instead fails with a division by zero),
every pixel's distance ratio is at most 1, the computed darkness is at
least 191, the `max(darkness, 140)` floor never changes the value, and
every vignette mask entry lies in [191, 255]. -/
theorem vignette_mask_range_amended :
    ∀ w h x y : ℕ, 0 < w → 0 < h → ¬(w = 1 ∧ h = 1) → x < w → y < h →
      vignetteRatio w h x y ≤ 1 ∧
      191 ≤ vignette_raw_darkness w h x y ∧
      vignette_mask w h x y = vignette_raw_darkness w h x y ∧
      191 ≤ vignette_mask w h x y ∧ vignette_mask w h x y ≤ 255 ∧
      vignette_mask_checked w h x y = some (vignette_mask w h x y) := by
  intro w h x y hw hh hne hx hy
  have hcx : 0 < w / 2 ∨ 0 < h / 2 := by omega
  have hxb : x ≤ 2 * (w / 2) := by omega
  have hyb : y ≤ 2 * (h / 2) := by omega
  have hdx : ((x : ℝ) - (w / 2 : ℕ)) ^ 2 ≤ ((w / 2 : ℕ) : ℝ) ^ 2 := by
    have c1 : (x : ℝ) ≤ 2 * ((w / 2 : ℕ) : ℝ) := by exact_mod_cast hxb
    have c2 : (0 : ℝ) ≤ (x : ℝ) := Nat.cast_nonneg x
    nlinarith
  have hdy : ((y : ℝ) - (h / 2 : ℕ)) ^ 2 ≤ ((h / 2 : ℕ) : ℝ) ^ 2 := by
    have c1 : (y : ℝ) ≤ 2 * ((h / 2 : ℕ) : ℝ) := by exact_mod_cast hyb
    have c2 : (0 : ℝ) ≤ (y : ℝ) := Nat.cast_nonneg y
    nlinarith
  have hmax : (0 : ℝ) < ((w / 2 : ℕ) : ℝ) ^ 2 + ((h / 2 : ℕ) : ℝ) ^ 2 := by
    rcases hcx with hc | hc
    · have : (1 : ℝ) ≤ ((w / 2 : ℕ) : ℝ) := by exact_mod_cast hc
      nlinarith [sq_nonneg (((h / 2 : ℕ) : ℝ))]
    · have : (1 : ℝ) ≤ ((h / 2 : ℕ) : ℝ) := by exact_mod_cast hc
      nlinarith [sq_nonneg (((w / 2 : ℕ) : ℝ))]
  have hratio : vignetteRatio w h x y ≤ 1 := by
    unfold vignetteRatio
    rw [div_le_one (Real.sqrt_pos.mpr hmax)]
    exact Real.sqrt_le_sqrt (by linarith)
  have hraw : 191 ≤ vignette_raw_darkness w h x y := by
    unfold vignette_raw_darkness
    split
    · rename_i h06
      have hv : ((191 : ℤ) : ℝ) ≤ 255 - (vignetteRatio w h x y - 0.6) * 160 := by
        push_cast
        nlinarith
      exact le_pyIntR (by push_cast at hv ⊢ ; linarith) hv
    · norm_num
  have hmask : vignette_mask w h x y = vignette_raw_darkness w h x y :=
    max_eq_left (by linarith)
  refine ⟨hratio, hraw, hmask, by rw [hmask] ; exact hraw,
    (vignette_mask_mem_range w h x y).2, ?_⟩
  unfold vignette_mask_checked
  rw [if_neg (by omega)]

/-- Witness for C10 at the concrete 3×1 raster geometry, pixel (0,0). -/
theorem vignette_mask_range_amended_witness :
    0 < 3 ∧ 0 < 1 ∧ ¬(3 = 1 ∧ 1 = 1) ∧ 0 < 3 ∧ 0 < 1 ∧
      (vignetteRatio 3 1 0 0 ≤ 1 ∧
       191 ≤ vignette_raw_darkness 3 1 0 0 ∧
       vignette_mask 3 1 0 0 = vignette_raw_darkness 3 1 0 0 ∧
       191 ≤ vignette_mask 3 1 0 0 ∧ vignette_mask 3 1 0 0 ≤ 255 ∧
       vignette_mask_checked 3 1 0 0 = some (vignette_mask 3 1 0 0)) :=
  ⟨by decide, by decide, by decide, by decide, by decide,
   vignette_mask_range_amended 3 1 0 0 (by decide) (by decide) (by decide)
     (by decide) (by decide)⟩

-- ═══════════════════════════════════════════════════════════
--  C8: determinism of the core pipeline
-- ═══════════════════════════════════════════════════════════

/-- Claim C8: The core pipeline is deterministic: it is a pure function of
the decoded input raster (given any fixed sharpening kernel), so two
runs on identical input rasters return identical output rasters,
identical applied-step lists and identical diagnostics reports (metrics,
severities, score, recommendations); likewise the detailed analysis
alone. -/
theorem pipeline_deterministic :
    ∀ (sharpen : ℚ → ℚ → ℚ → Raster → Raster) (i1 i2 : Raster),
      i1 = i2 →
      run_enhancement_pipeline sharpen i1 = run_enhancement_pipeline sharpen i2 ∧
      analyze_image_detailed i1 = analyze_image_detailed i2 := by
  intro sharpen i1 i2 h
  rw [h]
  exact ⟨rfl, rfl⟩

/-- Witness for C8: two runs on the same concrete raster, with the
identity sharpening kernel. -/
theorem pipeline_deterministic_witness :
    img50 = img50 ∧
    run_enhancement_pipeline (fun _ _ _ r => r) img50 =
      run_enhancement_pipeline (fun _ _ _ r => r) img50 :=
  ⟨rfl, (pipeline_deterministic (fun _ _ _ r => r) img50 img50 rfl).1⟩
